import Mathlib

/-
Shallow embedding of src/coinbase_csv.py.

The script fetches daily windows of candle data from the Coinbase REST API,
walking backward from midnight UTC of the current day, accumulating candle
records in a list, and finally (in a `finally:` block) writing them to a CSV
file.  The network is modelled by a script of `NetEvent`s, one per loop
iteration; datetimes are modelled as seconds since the Unix epoch (Int).
-/

namespace CoinbaseCsv

/-- A value produced by `json.loads`: JSON null, booleans, numbers (modelled as
rationals), strings, arrays and objects. -/
inductive JVal where
  | jnull : JVal
  | jbool (b : Bool) : JVal
  | jnum (q : ℚ) : JVal
  | jstr (s : String) : JVal
  | jarr (xs : List JVal) : JVal
  | jobj (fields : List (String × JVal)) : JVal

/-- Python truthiness, as used by `if not data:` (line 82): None, False, zero,
the empty string, the empty list and the empty dict are falsy. -/
def truthy : JVal → Bool
  | .jnull => false
  | .jbool b => b
  | .jnum q => !(q == 0)
  | .jstr s => !(s == "")
  | .jarr xs => !xs.isEmpty
  | .jobj fs => !fs.isEmpty

/-- Python iteration, as used by `for candle in data:` (line 87): lists yield
their elements, strings their characters (as 1-character strings), dicts their
keys; other values raise TypeError (`none`). -/
def pyIter : JVal → Option (List JVal)
  | .jarr xs => some xs
  | .jstr s => some (s.data.map (fun c => .jstr (String.singleton c)))
  | .jobj fs => some (fs.map (fun f => .jstr f.1))
  | _ => none

/-- Python subscripting with a non-negative int index, as used by `candle[i]`
(lines 88-97): list indexing (IndexError out of range), string indexing
(a 1-character string); dicts raise KeyError for an int key on JSON data
(string keys only), other values raise TypeError.  `none` models the raised
exception. -/
def pyIndex : JVal → Nat → Option JVal
  | .jarr xs, i => xs.get? i
  | .jstr s, i => (s.data.get? i).map (fun c => .jstr (String.singleton c))
  | _, _ => none

/-- The numeric value accepted by `datetime.fromtimestamp` (line 88): numbers,
and booleans (Python bools are ints).  Anything else raises TypeError. -/
def asNum : JVal → Option ℚ
  | .jnum q => some q
  | .jbool b => some (if b then 1 else 0)
  | _ => none

/-- Convert a count of days since 1970-01-01 to a civil (year, month, day)
in the proleptic Gregorian calendar (standard era-based algorithm, valid for
all integers thanks to floor division). -/
def civilFromDays (z : Int) : Int × Int × Int :=
  let z' := z + 719468
  let era := z'.ediv 146097
  let doe := z' - era * 146097
  let yoe := (doe - doe.ediv 1460 + doe.ediv 36524 - doe.ediv 146096).ediv 365
  let y := yoe + era * 400
  let doy := doe - (365 * yoe + yoe.ediv 4 - yoe.ediv 100)
  let mp := (5 * doy + 2).ediv 153
  let d := doy - (153 * mp + 2).ediv 5 + 1
  let m := mp + (if mp < 10 then 3 else -9)
  (y + (if m ≤ 2 then 1 else 0), m, d)

/-- Render a non-negative integer zero-padded to 2 digits. -/
def pad2 (n : Int) : String :=
  if n < 10 then "0" ++ toString n else toString n

/-- Render a non-negative integer zero-padded to 4 digits. -/
def pad4 (n : Int) : String :=
  if n < 10 then "000" ++ toString n
  else if n < 100 then "00" ++ toString n
  else if n < 1000 then "0" ++ toString n
  else toString n

/-- `datetime.fromtimestamp(t, UTC).isoformat()` for a whole number `t` of
seconds since the epoch: an ISO-8601 string with a `+00:00` offset. -/
def isoUTC (t : Int) : String :=
  let days := t.ediv 86400
  let sod := t.emod 86400
  let ymd := civilFromDays days
  pad4 ymd.1 ++ "-" ++ pad2 ymd.2.1 ++ "-" ++ pad2 ymd.2.2 ++ "T" ++
    pad2 (sod.ediv 3600) ++ ":" ++ pad2 ((sod.ediv 60).emod 60) ++ ":" ++
    pad2 (sod.emod 60) ++ "+00:00"

/-- `datetime.fromtimestamp(q, UTC).isoformat()` for a rational timestamp.
Candle timestamps from the API are whole seconds, which is the only case the
claims exercise; for a fractional timestamp Python appends microseconds
(rounded through binary floating point, which we approximate by flooring). -/
def fromtimestampIso (q : ℚ) : String :=
  if q.den = 1 then isoUTC q.num
  else
    let us := ⌊q * 1000000⌋
    let t := us.ediv 1000000
    let micro := us.emod 1000000
    let days := t.ediv 86400
    let sod := t.emod 86400
    let ymd := civilFromDays days
    let microStr := (toString (1000000 + micro)).drop 1
    pad4 ymd.1 ++ "-" ++ pad2 ymd.2.1 ++ "-" ++ pad2 ymd.2.2 ++ "T" ++
      pad2 (sod.ediv 3600) ++ ":" ++ pad2 ((sod.ediv 60).emod 60) ++ ":" ++
      pad2 (sod.emod 60) ++ "." ++ microStr ++ "+00:00"

/-- `generate_unique_csv_filename` (lines 11-14): a filename built from the
wall-clock time at the start of the run, `datetime.now().strftime("%Y%m%d_%H%M%S")`.
The local wall-clock instant is a parameter (seconds since the epoch in local
time). -/
def generate_unique_csv_filename (nowLocal : Int) : String :=
  let days := nowLocal.ediv 86400
  let sod := nowLocal.emod 86400
  let ymd := civilFromDays days
  "hourly_candles_" ++ pad4 ymd.1 ++ pad2 ymd.2.1 ++ pad2 ymd.2.2 ++ "_" ++
    pad2 (sod.ediv 3600) ++ pad2 ((sod.ediv 60).emod 60) ++ pad2 (sod.emod 60) ++
    ".csv"

/-- One Candle Record (lines 89-98): the dict appended to `candle_data`.
`Low`..`Volume` hold whatever JSON values sat at positions 1-5 of the raw
candle (the script does not validate them). -/
structure CandleRecord where
  Exchange : String
  Pair : String
  CloseTimestamp : String
  Low : JVal
  High : JVal
  Open : JVal
  Close : JVal
  Volume : JVal

/-- Lines 87-99 for a single raw candle: compute
`datetime.fromtimestamp(candle[0], UTC)` then build the record from
`candle[1]`..`candle[5]`.  `none` models an exception (TypeError/IndexError)
raised during construction. -/
def buildRecord (product_id : String) (candle : JVal) : Option CandleRecord := do
  let t0 ← pyIndex candle 0
  let ts ← asNum t0
  let low ← pyIndex candle 1
  let high ← pyIndex candle 2
  let popen ← pyIndex candle 3
  let pclose ← pyIndex candle 4
  let vol ← pyIndex candle 5
  pure { Exchange := "Coinbase", Pair := product_id,
         CloseTimestamp := fromtimestampIso ts,
         Low := low, High := high, Open := popen, Close := pclose, Volume := vol }

/-- The `for candle in data:` loop (lines 87-99): records are appended one at
a time; the Bool is `false` when some candle raised during construction, in
which case the records built from the earlier candles are kept. -/
def buildRecords (product_id : String) : List JVal → List CandleRecord × Bool
  | [] => ([], true)
  | c :: rest =>
    match buildRecord product_id c with
    | none => ([], false)
    | some r =>
      let tail := buildRecords product_id rest
      (r :: tail.1, tail.2)

/-- A response body, before `json.loads` (line 76): either it fails to parse
(JSONDecodeError) or it parses to a JSON value. -/
inductive Body where
  | malformed : Body
  | parsed (v : JVal) : Body

/-- The environment's behaviour for one loop iteration: the request/send step
(lines 61-62) either raises (sendFailure), is interrupted by the user
(KeyboardInterrupt), or yields a response with a status, a reason string and a
body. -/
inductive NetEvent where
  | sendFailure : NetEvent
  | interrupt : NetEvent
  | response (status : Nat) (reason : String) (body : Body) : NetEvent

/-- The ways the `while True` loop exits with a `break` statement. -/
inductive BreakReason where
  | sendFail : BreakReason
  | parseError : BreakReason
  | emptyData : BreakReason
  | floorStop : BreakReason
deriving DecidableEq

/-- The exceptions that can escape the loop body.  `httpError` is the
`raise Exception(f"Error fetching data: {status} {reason}")` of line 73;
`typeError` stands for the TypeError/IndexError raised when a truthy parsed
body is not a list of well-formed candles; `keyboardInterrupt` is the user
interruption. -/
inductive PyExc where
  | httpError (status : Nat) (reason : String) : PyExc
  | typeError : PyExc
  | keyboardInterrupt : PyExc
deriving DecidableEq

/-- How the loop ended: a `break`, an exception propagating out of the loop,
or the scripted environment ran out of events (a model artifact: a real run's
script is always long enough for the loop to terminate on its own). -/
inductive LoopResult where
  | broke (r : BreakReason) : LoopResult
  | raised (e : PyExc) : LoopResult
  | scriptEnd : LoopResult
deriving DecidableEq

/-- 2015-07-20T00:00:00Z as seconds since the epoch (line 107's
`datetime(2015, 7, 20, tzinfo=UTC)`). -/
def floorEpoch : Int := 1437350400

/-- The `while True` loop (lines 34-109), one `NetEvent` per iteration.
Returns the records appended during the loop, the list of requested windows
`(start_time, end_time)` in request order, and how the loop ended. -/
def loop (pid : String) : List NetEvent → Int → List CandleRecord × List (Int × Int) × LoopResult
  | [], _ => ([], [], .scriptEnd)
  | ev :: rest, end_time =>
    let start_time := end_time - 86400
    let w := (start_time, end_time)
    match ev with
    | .sendFailure => ([], [w], .broke .sendFail)
    | .interrupt => ([], [w], .raised .keyboardInterrupt)
    | .response status reason body =>
      if status ≠ 200 then ([], [w], .raised (.httpError status reason))
      else
        match body with
        | .malformed => ([], [w], .broke .parseError)
        | .parsed v =>
          if truthy v = false then ([], [w], .broke .emptyData)
          else
            match pyIter v with
            | none => ([], [w], .raised .typeError)
            | some candles =>
              let built := buildRecords pid candles
              if built.2 = false then (built.1, [w], .raised .typeError)
              else if start_time < floorEpoch then (built.1, [w], .broke .floorStop)
              else
                let tail := loop pid rest start_time
                (built.1 ++ tail.1, w :: tail.2.1, tail.2.2)

/-- Whether an exception is an instance of `Exception` and hence caught by the
`except Exception` clause of line 111.  `KeyboardInterrupt` derives from
`BaseException` directly, not from `Exception`, so it is not. -/
def excIsException : PyExc → Bool
  | .httpError _ _ => true
  | .typeError => true
  | .keyboardInterrupt => false

/-- The two except clauses of lines 111 and 114. -/
inductive Handler where
  | exceptException : Handler
  | exceptKeyboardInterrupt : Handler
deriving DecidableEq

/-- Python handler dispatch: clauses are tried in source order, the first
whose class matches the exception wins.  `except Exception` (line 111) does
not match KeyboardInterrupt, which falls through to the dedicated
`except KeyboardInterrupt` clause (line 114). -/
def dispatch (e : PyExc) : Handler :=
  if excIsException e then .exceptException else .exceptKeyboardInterrupt

/-- What the `finally:` block (lines 117-128) does: either it writes the CSV
file (header plus one row per record, in list order; CSV serialization itself
is not modelled beyond the ordered rows) or it logs "No data to write." and
writes nothing. -/
inductive FinalAction where
  | wroteFile (filename : String) (rows : List CandleRecord) : FinalAction
  | noData : FinalAction

/-- Lines 119-128: write the file when `candle_data` is non-empty, otherwise
report no data. -/
def finalize (filename : String) (records : List CandleRecord) : FinalAction :=
  if records.isEmpty then .noData else .wroteFile filename records

/-- Truncation to midnight UTC:
`datetime.now(UTC).replace(hour=0, minute=0, second=0, microsecond=0)`
(line 30). -/
def midnightUTC (t : Int) : Int := t - t.emod 86400

/-- The observable outcome of one run of `fetch_and_store_candles` that got
past validation: the filename chosen at the start, the accumulated records,
the requested windows, how the loop ended, which except clause (if any)
handled an escaping exception, and what the `finally:` block did. -/
structure RunResult where
  csvFilename : String
  records : List CandleRecord
  windows : List (Int × Int)
  loopResult : LoopResult
  handledBy : Option Handler
  final : FinalAction

/-- `fetch_and_store_candles` (lines 17-128).  `nowLocal` is the wall clock
read by `generate_unique_csv_filename` (local time), `nowUTC` the one read on
line 30, both as seconds since the epoch; `script` is the environment.
`Except.error` models the ValueError raised on line 22, before the
`try`/`finally` block is entered, so an error result carries no `RunResult`:
no filename is generated, no request is issued and the finalization step is
never reached. -/
def fetch_and_store_candles (product_id : String) (granularity : Int)
    (nowLocal nowUTC : Int) (script : List NetEvent) : Except String RunResult :=
  if granularity ∈ ([60, 300, 900, 3600, 21600, 86400] : List Int) then
    let csv_filename := generate_unique_csv_filename nowLocal
    let end_time := midnightUTC nowUTC
    let res := loop product_id script end_time
    Except.ok
      { csvFilename := csv_filename
        records := res.1
        windows := res.2.1
        loopResult := res.2.2
        handledBy := match res.2.2 with
          | .raised e => some (dispatch e)
          | _ => none
        final := finalize csv_filename res.1 }
  else
    Except.error ("Invalid granularity: " ++ toString granularity)

/-- A run reaches the finalization step (the `finally:` block of line 117)
exactly when it entered the `try` block, i.e. when validation passed. -/
def reachesFinalization : Except String RunResult → Bool
  | .ok _ => true
  | .error _ => false

/-- The windows for which a request was issued during a run (none when
validation failed before the loop). -/
def requestsIssued : Except String RunResult → List (Int × Int)
  | .ok r => r.windows
  | .error _ => []

/-- A successful 200 response whose body is a JSON array of candles. -/
def respOf (cs : List JVal) : NetEvent :=
  .response 200 "OK" (.parsed (.jarr cs))

/-- Every scripted response is non-empty and all of its candles build
successfully into records. -/
def goodLists (pid : String) (lists : List (List JVal)) : Prop :=
  ∀ cs ∈ lists, cs ≠ [] ∧ (buildRecords pid cs).2 = true

/-- The spec's example raw candle:
`[1609459200, 29000, 29500, 29200, 29400, 123.4]`. -/
def sampleCandle : JVal :=
  .jarr [.jnum 1609459200, .jnum 29000, .jnum 29500, .jnum 29200, .jnum 29400,
         .jnum (123.4 : ℚ)]

/-! Structural lemmas about the loop. -/

/-- One iteration either ends the loop with exactly the current window
requested, or (when it continues) the new cursor is still at or after the
floor date and the window list extends the recursive call's. -/
theorem loop_cons_struct (pid : String) (ev : NetEvent) (rest : List NetEvent) (e : Int) :
    (loop pid (ev :: rest) e).2.1 = [(e - 86400, e)] ∨
    (floorEpoch ≤ e - 86400 ∧
      (loop pid (ev :: rest) e).2.1 = (e - 86400, e) :: (loop pid rest (e - 86400)).2.1) := by
  cases ev with
  | sendFailure => left; simp [loop]
  | interrupt => left; simp [loop]
  | response status reason body =>
    by_cases hs : status = 200
    · subst hs
      cases body with
      | malformed => left; simp [loop]
      | parsed v =>
        by_cases ht : truthy v = false
        · left; simp [loop, ht]
        · cases hit : pyIter v with
          | none => left; simp [loop, ht, hit]
          | some candles =>
            by_cases hb : (buildRecords pid candles).2 = false
            · left; simp [loop, ht, hit, hb]
            · by_cases hf : e - 86400 < floorEpoch
              · left; simp [loop, ht, hit, hb, hf]
              · right; exact ⟨by omega, by simp [loop, ht, hit, hb, hf]⟩
    · left; simp [loop, hs]

/-- If the cursor starts at or after the floor date, every requested window
ends at or after the floor date. -/
theorem loop_windows_floor (pid : String) (script : List NetEvent) :
    ∀ e : Int, floorEpoch ≤ e →
      ∀ w ∈ (loop pid script e).2.1, floorEpoch ≤ w.2 := by
  induction script with
  | nil => intro e _ w hw; simp [loop] at hw
  | cons ev rest ih =>
    intro e he w hw
    rcases loop_cons_struct pid ev rest e with h | ⟨hfl, h⟩
    · rw [h] at hw
      rw [List.mem_singleton] at hw
      subst hw
      exact he
    · rw [h] at hw
      rcases List.mem_cons.mp hw with rfl | hw'
      · exact he
      · exact ih (e - 86400) hfl w hw'

/-- The i-th requested window (in request order) is the half-open day
`[e - (i+1)·86400, e - i·86400)` below the initial cursor `e`. -/
theorem loop_windows_idx (pid : String) (script : List NetEvent) :
    ∀ (e : Int) (i : Nat), i < ((loop pid script e).2.1).length →
      ((loop pid script e).2.1)[i]? =
        some (e - ((i : Int) + 1) * 86400, e - (i : Int) * 86400) := by
  induction script with
  | nil => intro e i h; simp [loop] at h
  | cons ev rest ih =>
    intro e i h
    rcases loop_cons_struct pid ev rest e with hw | ⟨_, hw⟩
    · rw [hw] at h ⊢
      have h0 : i = 0 := by simpa using Nat.lt_one_iff.mp (by simpa using h)
      subst h0
      simp
    · rw [hw] at h ⊢
      cases i with
      | zero => simp
      | succ j =>
        have hj : j < ((loop pid rest (e - 86400)).2.1).length := by simpa using h
        rw [List.getElem?_cons_succ, ih (e - 86400) j hj]
        simp only [Option.some.injEq, Prod.ext_iff]
        push_cast
        constructor <;> ring

/-- Processing one good response appends its records and recurses on the
previous day. -/
theorem loop_step_good (pid : String) (cs : List JVal) (rest : List NetEvent) (e : Int)
    (h1 : cs ≠ []) (h2 : (buildRecords pid cs).2 = true) (h3 : floorEpoch ≤ e - 86400) :
    loop pid (respOf cs :: rest) e =
      ((buildRecords pid cs).1 ++ (loop pid rest (e - 86400)).1,
        (e - 86400, e) :: (loop pid rest (e - 86400)).2.1,
        (loop pid rest (e - 86400)).2.2) := by
  obtain ⟨c, cs', rfl⟩ := List.exists_cons_of_ne_nil h1
  have hf : ¬ (e - 86400 < floorEpoch) := by omega
  simp [loop, respOf, truthy, pyIter, h2, hf]

/-- Running the loop on a script that starts with good responses consumes
them all: the records are the concatenation of each response's records
followed by whatever the tail script produces from the correspondingly
advanced cursor, and the loop's exit is the tail's exit. -/
theorem loop_good_run (pid : String) (lists : List (List JVal)) (rest : List NetEvent) :
    ∀ e : Int, goodLists pid lists →
      floorEpoch ≤ e - (lists.length : Int) * 86400 →
      (loop pid (lists.map respOf ++ rest) e).1 =
          (lists.map (fun cs => (buildRecords pid cs).1)).flatten ++
            (loop pid rest (e - (lists.length : Int) * 86400)).1 ∧
      (loop pid (lists.map respOf ++ rest) e).2.2 =
          (loop pid rest (e - (lists.length : Int) * 86400)).2.2 ∧
      (loop pid (lists.map respOf ++ rest) e).2.1.length =
          lists.length + (loop pid rest (e - (lists.length : Int) * 86400)).2.1.length := by
  induction lists with
  | nil => intro e _ _; simp
  | cons cs lists ih =>
    intro e hgood hfloor
    have hcs := hgood cs (List.mem_cons_self _ _)
    have hgood' : goodLists pid lists := fun c hc => hgood c (List.mem_cons_of_mem _ hc)
    simp only [List.length_cons] at hfloor
    push_cast at hfloor
    have hn : (0 : Int) ≤ (lists.length : Int) := Int.ofNat_nonneg _
    have h3 : floorEpoch ≤ e - 86400 := by nlinarith
    have hstep := loop_step_good pid cs (lists.map respOf ++ rest) e hcs.1 hcs.2 h3
    have hfl' : floorEpoch ≤ (e - 86400) - (lists.length : Int) * 86400 := by linarith
    have ih' := ih (e - 86400) hgood' hfl'
    have he : (e - 86400) - (lists.length : Int) * 86400 =
        e - ((lists.length : Int) + 1) * 86400 := by ring
    rw [he] at ih'
    rw [List.map_cons, List.cons_append, hstep]
    simp only [List.length_cons, List.map_cons, List.flatten_cons]
    push_cast
    rw [ih'.1, ih'.2.1, ih'.2.2]
    refine ⟨by simp [List.append_assoc], rfl, by omega⟩

/-! Lemmas about record construction. -/

/-- If all of `good` build and `bad` fails, the whole response keeps exactly
the records built from `good` and reports the failure. -/
theorem buildRecords_append_fail (pid : String) (good : List JVal) (bad : JVal)
    (rest : List JVal) (hgood : (buildRecords pid good).2 = true)
    (hbad : buildRecord pid bad = none) :
    buildRecords pid (good ++ bad :: rest) = ((buildRecords pid good).1, false) := by
  induction good with
  | nil => simp [buildRecords, hbad]
  | cons c good ih =>
    cases hc : buildRecord pid c with
    | none => simp [buildRecords, hc] at hgood
    | some r =>
      have hgood' : (buildRecords pid good).2 = true := by
        simpa [buildRecords, hc] using hgood
      simp [buildRecords, hc, ih hgood']

/-- When every candle of a response builds, one record is produced per
candle. -/
theorem buildRecords_length (pid : String) (cs : List JVal)
    (h : (buildRecords pid cs).2 = true) :
    (buildRecords pid cs).1.length = cs.length := by
  induction cs with
  | nil => simp [buildRecords]
  | cons c cs ih =>
    cases hc : buildRecord pid c with
    | none => simp [buildRecords, hc] at h
    | some r =>
      have h' : (buildRecords pid cs).2 = true := by
        simpa [buildRecords, hc] using h
      simp [buildRecords, hc, ih h']

/-! Claim theorems. -/

/-- C1 (amended): a run reaches the finalization step (exactly once) if and
only if granularity validation passes.  The four runtime failure modes
(RequestFailure, HttpStatusError, ResponseParseError, Interrupted) all reach
finalization, but an InvalidGranularity run raises the ValueError before the
try/finally block is entered and never reaches finalization. -/
theorem C1_finalization_iff_valid_granularity (pid : String) (g : Int)
    (nL nU : Int) (script : List NetEvent) :
    reachesFinalization (fetch_and_store_candles pid g nL nU script) =
      decide (g ∈ ([60, 300, 900, 3600, 21600, 86400] : List Int)) := by
  by_cases hg : g ∈ ([60, 300, 900, 3600, 21600, 86400] : List Int)
  · simp [fetch_and_store_candles, hg, reachesFinalization]
  · simp [fetch_and_store_candles, hg, reachesFinalization]

/-- C1 counterexample: a run rejected with InvalidGranularity (granularity
100) does not reach the finalization step, contrary to the claim that every
failure mode does. -/
theorem C1_invalid_granularity_no_finalization :
    reachesFinalization (fetch_and_store_candles "BTC-USD" 100 0 0 []) = false := by
  rfl

/-- C3: every granularity in the allowed set passes validation and the fetch
loop is entered (a request is issued whenever the script is non-empty); every
other integer granularity fails with the InvalidGranularity ValueError and no
request is issued. -/
theorem C3_granularity_validation (pid : String) (g : Int) (nL nU : Int)
    (script : List NetEvent) :
    (g ∈ ([60, 300, 900, 3600, 21600, 86400] : List Int) →
      (fetch_and_store_candles pid g nL nU script).isOk = true ∧
      (script ≠ [] →
        requestsIssued (fetch_and_store_candles pid g nL nU script) ≠ [])) ∧
    (g ∉ ([60, 300, 900, 3600, 21600, 86400] : List Int) →
      fetch_and_store_candles pid g nL nU script =
        Except.error ("Invalid granularity: " ++ toString g) ∧
      requestsIssued (fetch_and_store_candles pid g nL nU script) = []) := by
  constructor
  · intro hg
    constructor
    · simp [fetch_and_store_candles, hg, Except.isOk, Except.toBool]
    · intro hs
      obtain ⟨ev, rest, rfl⟩ := List.exists_cons_of_ne_nil hs
      simp only [fetch_and_store_candles, if_pos hg, requestsIssued]
      rcases loop_cons_struct pid ev rest (midnightUTC nU) with h | ⟨_, h⟩ <;>
        simp [h]
  · intro hg
    constructor <;> simp [fetch_and_store_candles, hg, requestsIssued]

/-- Witness for C3: granularity 3600 is accepted and issues a request;
granularity 7 is rejected with the ValueError and issues none. -/
theorem C3_granularity_validation_witness :
    (fetch_and_store_candles "BTC-USD" 3600 0 0 [NetEvent.sendFailure]).isOk = true ∧
    fetch_and_store_candles "BTC-USD" 7 0 0 [] =
      Except.error ("Invalid granularity: " ++ toString (7 : Int)) :=
  ⟨((C3_granularity_validation "BTC-USD" 3600 0 0 [NetEvent.sendFailure]).1
      (by decide)).1,
   ((C3_granularity_validation "BTC-USD" 7 0 0 []).2 (by decide)).1⟩

/-- C4: when the run starts on or after the floor date (as every actual run
does), no request is ever issued for a window whose end lies before
2015-07-20T00:00:00Z: once the cursor moves below the floor the loop stops
before issuing the next request. -/
theorem C4_no_request_before_floor (pid : String) (g : Int) (nL nU : Int)
    (script : List NetEvent)
    (hstart : floorEpoch ≤ midnightUTC nU) :
    ∀ w ∈ requestsIssued (fetch_and_store_candles pid g nL nU script),
      floorEpoch ≤ w.2 := by
  intro w hw
  by_cases hg : g ∈ ([60, 300, 900, 3600, 21600, 86400] : List Int)
  · simp only [fetch_and_store_candles, if_pos hg, requestsIssued] at hw
    exact loop_windows_floor pid script (midnightUTC nU) hstart w hw
  · simp [fetch_and_store_candles, hg, requestsIssued] at hw

/-- Witness for C4 at a concrete run started on 2025-10-12. -/
theorem C4_no_request_before_floor_witness :
    floorEpoch ≤ midnightUTC 1760227200 ∧
    ∀ w ∈ requestsIssued
        (fetch_and_store_candles "BTC-USD" 3600 0 1760227200 [NetEvent.sendFailure]),
      floorEpoch ≤ w.2 :=
  ⟨by decide,
   C4_no_request_before_floor "BTC-USD" 3600 0 1760227200 [NetEvent.sendFailure]
     (by decide)⟩

/-- C5: the requested windows form the contiguous, strictly decreasing
sequence of half-open one-day ranges walking back from midnight of the run
start: window i is [m - (i+1)·86400, m - i·86400) where m is the run's start
instant truncated to midnight UTC; hence window 0's end is m, each window
spans 24 hours, and window i+1's end equals window i's start. -/
theorem C5_windows_contiguous (pid : String) (g : Int) (nL nU : Int)
    (script : List NetEvent) (r : RunResult)
    (hr : fetch_and_store_candles pid g nL nU script = Except.ok r) :
    ∀ i : Nat, i < r.windows.length →
      r.windows[i]? = some (midnightUTC nU - ((i : Int) + 1) * 86400,
                            midnightUTC nU - (i : Int) * 86400) := by
  by_cases hg : g ∈ ([60, 300, 900, 3600, 21600, 86400] : List Int)
  · simp only [fetch_and_store_candles, if_pos hg] at hr
    injection hr with h
    subst h
    intro i hi
    exact loop_windows_idx pid script (midnightUTC nU) i (by simpa using hi)
  · simp [fetch_and_store_candles, hg] at hr

/-- Witness for C5 at a concrete one-request run. -/
theorem C5_windows_contiguous_witness :
    ({ csvFilename := "hourly_candles_19700101_000000.csv", records := [],
       windows := [(1760140800, 1760227200)], loopResult := .broke .sendFail,
       handledBy := none, final := .noData } : RunResult).windows[0]? =
      some (midnightUTC 1760227200 - (((0 : Nat) : Int) + 1) * 86400,
            midnightUTC 1760227200 - ((0 : Nat) : Int) * 86400) :=
  C5_windows_contiguous "BTC-USD" 3600 0 1760227200 [NetEvent.sendFailure] _
    (by rfl) 0 (by decide)

/-- C6: a raw 6-tuple candle `[t, low, high, open, close, volume]` yields a
record with Exchange "Coinbase", the requested pair verbatim, the ISO-8601
UTC rendering of t as Close Timestamp, and positions 1-5 as Low, High, Open,
Close, Volume; in particular the spec's example candle for BTC-USD yields
Close Timestamp 2021-01-01T00:00:00+00:00. -/
theorem C6_candle_record_fields (pid : String) (t : ℚ) (lo hi op cl vol : JVal) :
    buildRecord pid (.jarr [.jnum t, lo, hi, op, cl, vol]) =
      some { Exchange := "Coinbase", Pair := pid,
             CloseTimestamp := fromtimestampIso t,
             Low := lo, High := hi, Open := op, Close := cl, Volume := vol } ∧
    buildRecord "BTC-USD" sampleCandle =
      some { Exchange := "Coinbase", Pair := "BTC-USD",
             CloseTimestamp := "2021-01-01T00:00:00+00:00",
             Low := .jnum 29000, High := .jnum 29500, Open := .jnum 29200,
             Close := .jnum 29400, Volume := .jnum (123.4 : ℚ) } := by
  constructor
  · simp [buildRecord, pyIndex, asNum]
  · rfl

/-- C2: for a scripted sequence of successful non-empty candle responses
ending in an empty array (with the floor date not reached while consuming
them), the accumulation list after the loop is exactly the concatenation of
the responses' records, in the order the responses were received, each
response's candles in their order within the response. -/
theorem C2_accumulation_is_concat (pid : String) (g : Int) (nL nU : Int)
    (lists : List (List JVal))
    (hg : g ∈ ([60, 300, 900, 3600, 21600, 86400] : List Int))
    (hgood : goodLists pid lists)
    (hfloor : floorEpoch ≤ midnightUTC nU - (lists.length : Int) * 86400) :
    ∃ r : RunResult,
      fetch_and_store_candles pid g nL nU (lists.map respOf ++ [respOf []]) =
        Except.ok r ∧
      r.records = (lists.map (fun cs => (buildRecords pid cs).1)).flatten ∧
      r.loopResult = .broke .emptyData := by
  have h := loop_good_run pid lists [respOf []] (midnightUTC nU) hgood hfloor
  have htail1 :
      (loop pid [respOf []] (midnightUTC nU - (lists.length : Int) * 86400)).1 = [] := by
    simp [loop, respOf, truthy]
  have htail2 :
      (loop pid [respOf []] (midnightUTC nU - (lists.length : Int) * 86400)).2.2 =
        .broke .emptyData := by
    simp [loop, respOf, truthy]
  simp only [fetch_and_store_candles, if_pos hg]
  refine ⟨_, rfl, ?_, ?_⟩
  · show (loop pid (lists.map respOf ++ [respOf []]) (midnightUTC nU)).1 = _
    rw [h.1, htail1, List.append_nil]
  · show (loop pid (lists.map respOf ++ [respOf []]) (midnightUTC nU)).2.2 = _
    rw [h.2.1, htail2]

/-- Witness for C2: one response with the spec's sample candle, then an empty
response. -/
theorem C2_accumulation_witness :
    ∃ r : RunResult,
      fetch_and_store_candles "BTC-USD" 3600 0 1760227200
          ([[sampleCandle]].map respOf ++ [respOf []]) = Except.ok r ∧
      r.records =
        ([[sampleCandle]].map (fun cs => (buildRecords "BTC-USD" cs).1)).flatten ∧
      r.loopResult = .broke .emptyData :=
  C2_accumulation_is_concat "BTC-USD" 3600 0 1760227200 [[sampleCandle]]
    (by decide)
    (by
      intro cs hcs
      rw [List.mem_singleton] at hcs
      subst hcs
      exact ⟨by simp, rfl⟩)
    (by decide)

/-- C7: a non-200 response aborts the loop at that iteration through the
Exception raised on line 73, which escapes the loop and is caught by the
run-level `except Exception` handler; finalization still occurs with exactly
the records accumulated in the earlier iterations, and when the non-200
status arrives on the first request, zero records are accumulated and no file
is written. -/
theorem C7_http_error_aborts (pid : String) (g : Int) (nL nU : Int)
    (lists : List (List JVal)) (status : Nat) (reason : String) (body : Body)
    (rest : List NetEvent)
    (hg : g ∈ ([60, 300, 900, 3600, 21600, 86400] : List Int))
    (hs : status ≠ 200)
    (hgood : goodLists pid lists)
    (hfloor : floorEpoch ≤ midnightUTC nU - (lists.length : Int) * 86400) :
    ∃ r : RunResult,
      fetch_and_store_candles pid g nL nU
          (lists.map respOf ++ NetEvent.response status reason body :: rest) =
        Except.ok r ∧
      r.records = (lists.map (fun cs => (buildRecords pid cs).1)).flatten ∧
      r.loopResult = .raised (.httpError status reason) ∧
      r.handledBy = some .exceptException ∧
      r.final = finalize (generate_unique_csv_filename nL) r.records ∧
      r.windows.length = lists.length + 1 ∧
      (lists = [] → r.records = [] ∧ r.final = .noData) := by
  have h := loop_good_run pid lists (NetEvent.response status reason body :: rest)
    (midnightUTC nU) hgood hfloor
  have htail :
      loop pid (NetEvent.response status reason body :: rest)
          (midnightUTC nU - (lists.length : Int) * 86400) =
        ([], [(midnightUTC nU - (lists.length : Int) * 86400 - 86400,
               midnightUTC nU - (lists.length : Int) * 86400)],
         .raised (.httpError status reason)) := by
    simp [loop, hs]
  have hrec : (loop pid (lists.map respOf ++
      NetEvent.response status reason body :: rest) (midnightUTC nU)).1 =
        (lists.map (fun cs => (buildRecords pid cs).1)).flatten := by
    rw [h.1, htail, List.append_nil]
  have hres : (loop pid (lists.map respOf ++
      NetEvent.response status reason body :: rest) (midnightUTC nU)).2.2 =
        .raised (.httpError status reason) := by
    rw [h.2.1, htail]
  have hwin : (loop pid (lists.map respOf ++
      NetEvent.response status reason body :: rest) (midnightUTC nU)).2.1.length =
        lists.length + 1 := by
    rw [h.2.2, htail]
    rfl
  simp only [fetch_and_store_candles, if_pos hg]
  refine ⟨_, rfl, hrec, hres, ?_, ?_, hwin, ?_⟩
  · show (match (loop pid (lists.map respOf ++
        NetEvent.response status reason body :: rest) (midnightUTC nU)).2.2 with
      | LoopResult.raised e => some (dispatch e)
      | _ => none) = some Handler.exceptException
    rw [hres]
    rfl
  · rfl
  · intro hl
    subst hl
    refine ⟨by simpa using hrec, ?_⟩
    show finalize (generate_unique_csv_filename nL)
        (loop pid ([] ++ NetEvent.response status reason body :: rest)
          (midnightUTC nU)).1 = FinalAction.noData
    rw [show (loop pid ([] ++ NetEvent.response status reason body :: rest)
          (midnightUTC nU)).1 = [] by simpa using hrec]
    rfl

/-- Witness for C7: the first request receives a 429 response after zero
good responses. -/
theorem C7_http_error_witness :
    ∃ r : RunResult,
      fetch_and_store_candles "BTC-USD" 3600 0 1760227200
          (([] : List (List JVal)).map respOf ++
            NetEvent.response 429 "Too Many Requests" (.parsed .jnull) :: []) =
        Except.ok r ∧
      r.records =
        (([] : List (List JVal)).map (fun cs => (buildRecords "BTC-USD" cs).1)).flatten ∧
      r.loopResult = .raised (.httpError 429 "Too Many Requests") ∧
      r.handledBy = some .exceptException ∧
      r.final = finalize (generate_unique_csv_filename 0) r.records ∧
      r.windows.length = ([] : List (List JVal)).length + 1 ∧
      (([] : List (List JVal)) = [] → r.records = [] ∧ r.final = .noData) :=
  C7_http_error_aborts "BTC-USD" 3600 0 1760227200 []
    429 "Too Many Requests" (.parsed .jnull) [] (by decide) (by decide)
    (by intro cs hcs; simp at hcs) (by decide)

/-- C8 counterexample: a 200 response whose body is valid JSON but not an
array of candle arrays (here a JSON object) is not recovered locally as a
parse failure: iterating it raises a TypeError that propagates out of the
loop and is caught by the run-level `except Exception` handler (line 111),
not by the local JSONDecodeError handler (line 78). -/
theorem C8_wrong_shape_counterexample :
    fetch_and_store_candles "BTC-USD" 3600 0 1760227200
        [NetEvent.response 200 "OK"
          (.parsed (.jobj [("message", .jstr "NotFound")]))] =
      Except.ok { csvFilename := "hourly_candles_19700101_000000.csv",
                  records := [], windows := [(1760140800, 1760227200)],
                  loopResult := .raised .typeError,
                  handledBy := some .exceptException,
                  final := .noData } := by
  rfl

/-- C8 (amended): only a body that fails JSON parsing is recovered locally
(the loop breaks with the parse-failure reason, the accumulated records are
kept and finalization proceeds); a body that parses to a truthy value that is
not a list of well-formed candles instead raises an error that propagates out
of the loop and is caught by the run-level handler — finalization proceeds in
every case. -/
theorem C8_body_handling (pid : String) (g : Int) (nL nU : Int)
    (reason : String) (rest : List NetEvent)
    (hg : g ∈ ([60, 300, 900, 3600, 21600, 86400] : List Int)) :
    (∃ r : RunResult,
      fetch_and_store_candles pid g nL nU
          (NetEvent.response 200 reason .malformed :: rest) = Except.ok r ∧
      r.loopResult = .broke .parseError ∧ r.records = [] ∧ r.final = .noData) ∧
    (∀ v : JVal, truthy v = true →
      (pyIter v = none ∨ ∃ cs, pyIter v = some cs ∧ (buildRecords pid cs).2 = false) →
      ∃ r : RunResult,
        fetch_and_store_candles pid g nL nU
            (NetEvent.response 200 reason (.parsed v) :: rest) = Except.ok r ∧
        r.loopResult = .raised .typeError ∧
        r.handledBy = some .exceptException ∧
        r.final = finalize (generate_unique_csv_filename nL) r.records) := by
  constructor
  · have hl : loop pid (NetEvent.response 200 reason .malformed :: rest)
        (midnightUTC nU) =
          ([], [(midnightUTC nU - 86400, midnightUTC nU)], .broke .parseError) := by
      simp [loop]
    simp only [fetch_and_store_candles, if_pos hg]
    exact ⟨_, rfl, by rw [hl], by rw [hl], by rw [hl]; rfl⟩
  · intro v htr hcase
    have hl : (loop pid (NetEvent.response 200 reason (.parsed v) :: rest)
        (midnightUTC nU)).2.2 = .raised .typeError := by
      rcases hcase with hnone | ⟨cs, hcs, hfail⟩
      · simp [loop, htr, hnone]
      · simp [loop, htr, hcs, hfail]
    simp only [fetch_and_store_candles, if_pos hg]
    refine ⟨_, rfl, hl, ?_, rfl⟩
    show (match (loop pid (NetEvent.response 200 reason (.parsed v) :: rest)
        (midnightUTC nU)).2.2 with
      | LoopResult.raised e => some (dispatch e)
      | _ => none) = some Handler.exceptException
    rw [hl]
    rfl

/-- Witness for C8 (amended): a malformed body is recovered locally; a body
parsing to the truthy non-iterable number 5 raises through to the run-level
handler. -/
theorem C8_body_handling_witness :
    (∃ r : RunResult,
      fetch_and_store_candles "BTC-USD" 3600 0 1760227200
          (NetEvent.response 200 "OK" .malformed :: []) = Except.ok r ∧
      r.loopResult = .broke .parseError ∧ r.records = [] ∧ r.final = .noData) ∧
    (∃ r : RunResult,
      fetch_and_store_candles "BTC-USD" 3600 0 1760227200
          (NetEvent.response 200 "OK" (.parsed (.jnum 5)) :: []) = Except.ok r ∧
      r.loopResult = .raised .typeError ∧
      r.handledBy = some .exceptException ∧
      r.final = finalize (generate_unique_csv_filename 0) r.records) :=
  ⟨(C8_body_handling "BTC-USD" 3600 0 1760227200 "OK" [] (by decide)).1,
   (C8_body_handling "BTC-USD" 3600 0 1760227200 "OK" [] (by decide)).2
     (.jnum 5) (by rfl) (Or.inl rfl)⟩

/-- C9: a KeyboardInterrupt escaping the fetch loop is not matched by the
generic `except Exception` clause (KeyboardInterrupt does not derive from
Exception); it is caught by the dedicated handler, finalization runs on the
partial data, and the function returns normally — the interruption is
swallowed. -/
theorem C9_interrupt_swallowed (pid : String) (g : Int) (nL nU : Int)
    (script : List NetEvent)
    (hg : g ∈ ([60, 300, 900, 3600, 21600, 86400] : List Int))
    (hint : (loop pid script (midnightUTC nU)).2.2 = .raised .keyboardInterrupt) :
    ∃ r : RunResult,
      fetch_and_store_candles pid g nL nU script = Except.ok r ∧
      r.handledBy = some .exceptKeyboardInterrupt ∧
      r.handledBy ≠ some .exceptException ∧
      r.final = finalize (generate_unique_csv_filename nL) r.records := by
  simp only [fetch_and_store_candles, if_pos hg]
  have hdisp : (match (loop pid script (midnightUTC nU)).2.2 with
      | LoopResult.raised e => some (dispatch e)
      | _ => none) = some Handler.exceptKeyboardInterrupt := by
    rw [hint]
    rfl
  exact ⟨_, rfl, hdisp, by rw [hdisp]; simp, rfl⟩

/-- Witness for C9: a run interrupted on its first iteration. -/
theorem C9_interrupt_witness :
    ∃ r : RunResult,
      fetch_and_store_candles "BTC-USD" 3600 0 1760227200 [NetEvent.interrupt] =
        Except.ok r ∧
      r.handledBy = some .exceptKeyboardInterrupt ∧
      r.handledBy ≠ some .exceptException ∧
      r.final = finalize (generate_unique_csv_filename 0) r.records :=
  C9_interrupt_swallowed "BTC-USD" 3600 0 1760227200 [NetEvent.interrupt]
    (by decide) (by rfl)

/-- C10: accumulation is per candle, not atomic per response: when some
candle of a response fails to build (e.g. an array with fewer than 6
elements), the records already built from the earlier candles of that same
response stay in the accumulation list and, when non-empty, are written to
the output file at finalization. -/
theorem C10_partial_accumulation (pid : String) (g : Int) (nL nU : Int)
    (reason : String) (good : List JVal) (bad : JVal) (rest : List JVal)
    (scriptRest : List NetEvent)
    (hg : g ∈ ([60, 300, 900, 3600, 21600, 86400] : List Int))
    (hgood : (buildRecords pid good).2 = true)
    (hbad : buildRecord pid bad = none) :
    ∃ r : RunResult,
      fetch_and_store_candles pid g nL nU
          (NetEvent.response 200 reason (.parsed (.jarr (good ++ bad :: rest))) ::
            scriptRest) = Except.ok r ∧
      r.records = (buildRecords pid good).1 ∧
      r.loopResult = .raised .typeError ∧
      r.final = finalize (generate_unique_csv_filename nL) (buildRecords pid good).1 ∧
      (good ≠ [] →
        r.final = .wroteFile (generate_unique_csv_filename nL)
          (buildRecords pid good).1) := by
  have htr : truthy (.jarr (good ++ bad :: rest)) = true := by
    cases good <;> rfl
  have hfail := buildRecords_append_fail pid good bad rest hgood hbad
  have hl : loop pid
      (NetEvent.response 200 reason (.parsed (.jarr (good ++ bad :: rest))) ::
        scriptRest) (midnightUTC nU) =
      ((buildRecords pid good).1,
       [(midnightUTC nU - 86400, midnightUTC nU)], .raised .typeError) := by
    simp [loop, htr, pyIter, hfail]
  simp only [fetch_and_store_candles, if_pos hg]
  refine ⟨_, rfl, by rw [hl], by rw [hl], by rw [hl], ?_⟩
  · intro hne
    have hlen := buildRecords_length pid good hgood
    have hne' : (buildRecords pid good).1 ≠ [] := by
      intro h0
      apply hne
      have : good.length = 0 := by rw [← hlen, h0]; rfl
      exact List.length_eq_zero.mp this
    show finalize (generate_unique_csv_filename nL)
        (loop pid (NetEvent.response 200 reason
          (.parsed (.jarr (good ++ bad :: rest))) :: scriptRest)
          (midnightUTC nU)).1 = _
    rw [hl]
    simp only [finalize]
    rw [if_neg (by simpa [List.isEmpty_iff] using hne')]

/-- Witness for C10: a response whose first candle is the sample candle and
whose second candle is an empty array (fewer than 6 elements). -/
theorem C10_partial_accumulation_witness :
    ∃ r : RunResult,
      fetch_and_store_candles "BTC-USD" 3600 0 1760227200
          (NetEvent.response 200 "OK"
            (.parsed (.jarr ([sampleCandle] ++ JVal.jarr [] :: []))) :: []) =
        Except.ok r ∧
      r.records = (buildRecords "BTC-USD" [sampleCandle]).1 ∧
      r.loopResult = .raised .typeError ∧
      r.final = finalize (generate_unique_csv_filename 0)
        (buildRecords "BTC-USD" [sampleCandle]).1 ∧
      ([sampleCandle] ≠ [] →
        r.final = .wroteFile (generate_unique_csv_filename 0)
          (buildRecords "BTC-USD" [sampleCandle]).1) :=
  C10_partial_accumulation "BTC-USD" 3600 0 1760227200 "OK"
    [sampleCandle] (JVal.jarr []) [] [] (by decide) (by rfl) (by rfl)

end CoinbaseCsv
